import Mathlib

/-!
Verification of the gcp-vm-manager lifecycle orchestration core against its
specification.  The definitions below are a shallow embedding of
`src/gcp_vm_manager/main.py` and `src/gcp_vm_manager/gui.py`.

Modelling conventions:
* A Python configuration dict with the four keys `project_id`, `zone`,
  `instance_name`, `service_key_path` is embedded as the structure `Config`.
  A missing key is represented by the empty string: every read in the source
  goes through `config.get(field)` guarded by truthiness (`not config.get(f)`
  and `if os.getenv(X)`), and Python treats a missing key and the value `""`
  identically under that guard, so the representation is faithful for all the
  code paths modelled here.
* Persistent storage (the JSON file at the per-user location) is embedded as
  `Option Config`: `none` when no file exists, `some c` when the file holds
  the serialized dict of `c`.  JSON serialization of a flat string dict is
  lossless, so `json.dump`/`json.load` round-tripping is the identity.
  I/O faults (disk errors) are outside the model; the functions below embed
  the non-faulting behaviour of the `try` bodies.
* Environment variables are embedded as `Option String` per variable:
  `none` when unset, `some s` when set to `s`.  `os.getenv` returns `None`
  or the string, and the source tests the result for truthiness.
-/

/-- The four-field connection configuration (`Configuration` in the spec,
a plain dict in `main.py`).  A missing dict key is represented by `""`. -/
structure Config where
  project_id : String
  zone : String
  instance_name : String
  service_key_path : String
deriving DecidableEq, Repr

/-- The empty configuration: the `{}` dict returned by `load_saved_config`
when no file is present. -/
def emptyConfig : Config := ⟨"", "", "", ""⟩

/-- `main.py validate_config`: returns False as soon as some required field
is missing or falsy (`if not config.get(field)`), True otherwise.  Note the
source tests Python truthiness of the raw value: it does not strip
whitespace, so a whitespace-only field is truthy and accepted. -/
def validate_config (config : Config) : Bool :=
  config.project_id != "" && config.zone != "" &&
    config.instance_name != "" && config.service_key_path != ""

/-- Whitespace trimming (Python `str.strip` on the whitespace the spec
means): drops leading and trailing whitespace characters. -/
def trimStr (s : String) : String :=
  String.mk
    (((s.data.dropWhile Char.isWhitespace).reverse.dropWhile
        Char.isWhitespace).reverse)

/-- Stated from the spec's words, for comparison with `validate_config`:
"true iff all four fields are non-empty after trimming whitespace". -/
def validateSpec (config : Config) : Bool :=
  trimStr config.project_id != "" && trimStr config.zone != "" &&
    trimStr config.instance_name != "" && trimStr config.service_key_path != ""

/-- `main.py save_config`: opens the config file for writing and dumps the
given dict, returning True.  The function performs no validation; it writes
whatever dict it receives.  Result: (new storage contents, returned bool). -/
def save_config (_store : Option Config) (config : Config) :
    Option Config × Bool :=
  (some config, true)

/-- `main.py clear_saved_config`: unlinks the config file if it exists and
returns True either way (idempotent). -/
def clear_saved_config (_store : Option Config) : Option Config × Bool :=
  (none, true)

/-- `main.py load_saved_config`: returns the parsed dict when the config
file exists, and `{}` when it does not. -/
def load_saved_config (store : Option Config) : Config :=
  match store with
  | some c => c
  | none => emptyConfig

/-- `gui.py ConfigDialog.save_and_accept`: validates the dialog's config and
only calls `save_config` when validation passes; on validation failure it
shows a warning and leaves storage untouched. -/
def save_and_accept (store : Option Config) (config : Config) :
    Option Config × Bool :=
  if validate_config config then save_config store config else (store, false)

/-- The four `GCP_*` environment variables, each `none` when unset. -/
structure EnvVars where
  gcp_project_id : Option String
  gcp_zone : Option String
  gcp_instance_name : Option String
  gcp_service_key_path : Option String
deriving DecidableEq, Repr

/-- One override step of `load_config` / `load_initial_config`:
`if os.getenv(VAR): config[field] = os.getenv(VAR)`.  The guard is Python
truthiness, so a variable that is unset or set to `""` does not override. -/
def applyEnvOverride (v : Option String) (cur : String) : String :=
  match v with
  | some s => if s != "" then s else cur
  | none => cur

/-- Whether `if os.getenv(VAR)` takes the override branch. -/
def envTruthy (v : Option String) : Bool :=
  match v with
  | some s => s != ""
  | none => false

/-- `gui.py GCPVMManagerGUI.load_initial_config`, configuration part: load
the saved config, then apply the four environment overrides (validation of
the result happens afterwards in the caller).  The console `load_config`
performs the same two stages before prompting for still-missing fields. -/
def load_initial_config (store : Option Config) (env : EnvVars) : Config :=
  let c := load_saved_config store
  { project_id := applyEnvOverride env.gcp_project_id c.project_id
    zone := applyEnvOverride env.gcp_zone c.zone
    instance_name := applyEnvOverride env.gcp_instance_name c.instance_name
    service_key_path :=
      applyEnvOverride env.gcp_service_key_path c.service_key_path }

/-- Stated from the spec's words, for comparison: the effective field value
is "the environment value if set, else the persisted value if present, else
empty". -/
def effectiveFieldSpec (envv : Option String) (stored : String) : String :=
  match envv with
  | some s => s
  | none => stored

/-- Lifecycle operation kinds dispatched to the background worker
(the spec's Operation kinds STATUS / START / STOP). -/
inductive OpKind
  | STATUS
  | START
  | STOP
deriving DecidableEq, Repr

/-- The user-facing actions offered by the menu (the spec's Action set;
NONE is "Do nothing"). -/
inductive MenuAction
  | START
  | STOP
  | NONE
deriving DecidableEq, Repr

/-- The action sets offered by `main.py display_menu` / accepted by
`get_user_choice`, keyed by the raw status string: RUNNING offers
stop-or-nothing, TERMINATED offers start-or-nothing, and any other status
(TRANSITIONING, UNKNOWN strings, error text, ...) offers try-start,
try-stop, or nothing. -/
def legalActions (vm_status : String) : List MenuAction :=
  if vm_status == "RUNNING" then [MenuAction.STOP, MenuAction.NONE]
  else if vm_status == "TERMINATED" then [MenuAction.START, MenuAction.NONE]
  else [MenuAction.START, MenuAction.STOP, MenuAction.NONE]

/-- `main.py get_user_choice`: maps the entered menu number to the choice
string returned to `main` ("start" / "stop" / "nothing"); an invalid number
re-prompts, embedded here as `none`. -/
def get_user_choice (vm_status choice : String) : Option String :=
  if vm_status == "RUNNING" || vm_status == "TERMINATED" then
    if choice == "1" then
      some (if vm_status == "RUNNING" then "stop" else "start")
    else if choice == "2" then some "nothing"
    else none
  else
    if choice == "1" then some "start"
    else if choice == "2" then some "stop"
    else if choice == "3" then some "nothing"
    else none

/-- The dispatch at the end of `main.py main`: "start" calls
`start_instance`, "stop" calls `stop_instance`, anything else ("nothing")
dispatches no operation. -/
def dispatch_choice (choice : String) : Option OpKind :=
  if choice == "start" then some OpKind.START
  else if choice == "stop" then some OpKind.STOP
  else none

/-- An instance descriptor returned by the remote get-instance call
(`compute_v1` Instance); only its status field is consumed. -/
structure VmInstance where
  status : String
deriving DecidableEq, Repr

/-- An operation handle returned by the remote start/stop calls; only its
name is consumed (for logging). -/
structure OperationHandle where
  name : String
deriving DecidableEq, Repr

/-- The authorized compute client (`compute_v1.InstancesClient`): the
behaviour of its three remote calls, each given (project, zone, instance)
and either returning a value or raising (embedded as `Except`). -/
structure ComputeClient where
  getInstance : String → String → String → Except String VmInstance
  startInstance : String → String → String → Except String OperationHandle
  stopInstance : String → String → String → Except String OperationHandle

/-- `main.py GCPVMManager`: the controller state.  `compute_client` is
`none` until `authenticate` succeeds. -/
structure GCPVMManager where
  project_id : String
  zone : String
  instance_name : String
  service_key_path : String
  compute_client : Option ComputeClient

/-- `GCPVMManager.__init__`: stores the four fields and sets
`compute_client = None`. -/
def GCPVMManager.mkInit (project_id zone instance_name service_key_path :
    String) : GCPVMManager :=
  ⟨project_id, zone, instance_name, service_key_path, none⟩

/-- The body of the `try` block of `get_instance_status`.  When
`compute_client` is `None`, the attribute access `self.compute_client.get`
raises `AttributeError`; otherwise the remote call runs and the instance's
status field is returned. -/
def GCPVMManager.get_instance_status_body (m : GCPVMManager) :
    Except String String :=
  match m.compute_client with
  | none => Except.error "AttributeError"
  | some c =>
      (c.getInstance m.project_id m.zone m.instance_name).map VmInstance.status

/-- `main.py GCPVMManager.get_instance_status`: the whole `try`/`except`,
returning the status string or `None` on any exception. -/
def GCPVMManager.get_instance_status (m : GCPVMManager) : Option String :=
  match m.get_instance_status_body with
  | Except.ok s => some s
  | Except.error _ => none

/-- The body of the `try` block of `start_instance`; attribute access on a
`None` client raises. -/
def GCPVMManager.start_instance_body (m : GCPVMManager) :
    Except String OperationHandle :=
  match m.compute_client with
  | none => Except.error "AttributeError"
  | some c => c.startInstance m.project_id m.zone m.instance_name

/-- `main.py GCPVMManager.start_instance`: True when the remote call
returned an operation handle, False on any exception. -/
def GCPVMManager.start_instance (m : GCPVMManager) : Bool :=
  match m.start_instance_body with
  | Except.ok _ => true
  | Except.error _ => false

/-- The body of the `try` block of `stop_instance`. -/
def GCPVMManager.stop_instance_body (m : GCPVMManager) :
    Except String OperationHandle :=
  match m.compute_client with
  | none => Except.error "AttributeError"
  | some c => c.stopInstance m.project_id m.zone m.instance_name

/-- `main.py GCPVMManager.stop_instance`: True when the remote call
returned an operation handle, False on any exception. -/
def GCPVMManager.stop_instance (m : GCPVMManager) : Bool :=
  match m.stop_instance_body with
  | Except.ok _ => true
  | Except.error _ => false

/-- The Qt signals a `VMWorker` emits back to the GUI thread. -/
inductive Event
  | status_updated (status : String)
  | operation_completed (success : Bool) (message : String)
  | error_occurred (message : String)
deriving DecidableEq, Repr

/-- `gui.py VMWorker.get_status`, as a function of the result of
`get_instance_status` (`none` embeds the `None` return on error).  The
source tests `if status:`, Python truthiness over `Optional[str]`, so both
`None` and the empty string take the error branch. -/
def worker_get_status (result : Option String) : Event :=
  match result with
  | some s =>
      if s != "" then Event.status_updated s
      else Event.error_occurred "Failed to get VM status"
  | none => Event.error_occurred "Failed to get VM status"

/-- `gui.py VMWorker.start_vm`, as a function of the result of
`start_instance`. -/
def worker_start_vm (success : Bool) : Event :=
  if success then
    Event.operation_completed true "VM start operation initiated successfully"
  else Event.operation_completed false "Failed to start VM"

/-- `gui.py VMWorker.stop_vm`, as a function of the result of
`stop_instance`. -/
def worker_stop_vm (success : Bool) : Event :=
  if success then
    Event.operation_completed true "VM stop operation initiated successfully"
  else Event.operation_completed false "Failed to stop VM"

/-- The coordinator-relevant state of `GCPVMManagerGUI` plus the worker
thread it drives.

Threading embedded: the `VMWorker` lives on `worker_thread`
(`moveToThread`), so `QTimer.singleShot(0, self.worker.slot)` posts a
queued invocation of the slot to the worker thread's event loop; `pending`
is that queue, in arrival order.  The loop executes queued slots strictly
one at a time; `executing` is the slot currently running (the blocking
remote call).  `hasWorker` embeds `self.worker is not None` (and the
matching `worker_thread`); `hasVmManager` embeds
`self.vm_manager is not None`. -/
structure GuiState where
  hasWorker : Bool
  hasVmManager : Bool
  refreshEnabled : Bool
  startEnabled : Bool
  stopEnabled : Bool
  cancelEnabled : Bool
  progressVisible : Bool
  autoRefreshActive : Bool
  statusText : String
  pending : List OpKind
  executing : Option OpKind
deriving DecidableEq, Repr

/-- `gui.py show_progress`: shows the indeterminate progress bar and
enables the cancel button. -/
def show_progress (s : GuiState) : GuiState :=
  { s with progressVisible := true, cancelEnabled := true }

/-- `gui.py hide_progress`. -/
def hide_progress (s : GuiState) : GuiState :=
  { s with progressVisible := false, cancelEnabled := false }

/-- Whether a lifecycle operation is in flight: a worker slot is executing
or queued invocations are waiting on the worker thread. -/
def busyState (s : GuiState) : Bool :=
  s.executing.isSome || !s.pending.isEmpty

/-- `gui.py GCPVMManagerGUI.refresh_status`: bails out (with a log warning)
only when the worker or the VM manager is missing; otherwise shows
progress, disables the refresh button, and posts `get_status` to the worker
thread.  The second component records whether a request was dispatched.
There is no in-flight check: the method dispatches even while an operation
is executing or queued. -/
def refresh_status (s : GuiState) : GuiState × Bool :=
  if !s.hasWorker || !s.hasVmManager then (s, false)
  else
    let s1 := show_progress s
    let s2 := { s1 with refreshEnabled := false }
    ({ s2 with pending := s2.pending ++ [OpKind.STATUS] }, true)

/-- `gui.py GCPVMManagerGUI.start_vm`: bails out only when the worker is
missing; otherwise shows progress, disables start/stop, and posts
`start_vm` to the worker thread. -/
def gui_start_vm (s : GuiState) : GuiState × Bool :=
  if !s.hasWorker then (s, false)
  else
    let s1 := show_progress s
    let s2 := { s1 with startEnabled := false, stopEnabled := false }
    ({ s2 with pending := s2.pending ++ [OpKind.START] }, true)

/-- `gui.py GCPVMManagerGUI.stop_vm`: symmetric to `gui_start_vm`. -/
def gui_stop_vm (s : GuiState) : GuiState × Bool :=
  if !s.hasWorker then (s, false)
  else
    let s1 := show_progress s
    let s2 := { s1 with startEnabled := false, stopEnabled := false }
    ({ s2 with pending := s2.pending ++ [OpKind.STOP] }, true)

/-- An auto-refresh timer tick: `refresh_timer.timeout` is connected to
`refresh_status`, which runs unconditionally when the timer is active —
there is no idle check before dispatching. -/
def autoRefreshTick (s : GuiState) : GuiState × Bool :=
  if s.autoRefreshActive then refresh_status s else (s, false)

/-- One scheduling step of the worker thread's event loop: it begins the
next queued slot invocation only when no slot is currently executing, in
arrival (FIFO) order; otherwise nothing happens. -/
def workerTake (s : GuiState) : GuiState :=
  match s.executing, s.pending with
  | none, k :: rest => { s with executing := some k, pending := rest }
  | _, _ => s

/-- `gui.py GCPVMManagerGUI.update_status` (slot for `status_updated`):
shows the status, hides progress, re-enables refresh, and sets the
start/stop buttons from the status string. -/
def update_status (s : GuiState) (status : String) : GuiState :=
  let s1 := { hide_progress s with
                statusText := status, refreshEnabled := true }
  if status == "RUNNING" then
    { s1 with startEnabled := false, stopEnabled := true }
  else if status == "TERMINATED" then
    { s1 with startEnabled := true, stopEnabled := false }
  else { s1 with startEnabled := true, stopEnabled := true }

/-- Outcome of `cancel_operations`: the final GUI state, whether the
teardown blocked on a slot that was executing a remote call, and the queued
invocations that were discarded unexecuted. -/
structure CancelOutcome where
  state : GuiState
  waitedForExecuting : Bool
  discarded : List OpKind
deriving DecidableEq, Repr

/-- `gui.py GCPVMManagerGUI.cancel_operations`: stops the auto-refresh
timer, then tears the worker thread down with `worker_thread.quit()`
followed by `worker_thread.wait()`.  `quit` asks the thread's event loop
to exit and `wait` blocks until the thread finishes, so a slot currently
executing a blocking remote call must return its data before `wait`
returns — `waitedForExecuting` records that the teardown blocked on it.
Queued-but-unstarted invocations are dropped when the loop exits.  Finally
the UI is reset: progress hidden, refresh enabled, start/stop disabled,
status label "Cancelled". -/
def cancel_operations (s : GuiState) : CancelOutcome :=
  let s1 := { s with autoRefreshActive := false }
  let waited := s1.hasWorker && s1.executing.isSome
  let dropped := if s1.hasWorker then s1.pending else []
  let s2 :=
    if s1.hasWorker then
      { s1 with hasWorker := false, executing := none, pending := [] }
    else s1
  let s3 := hide_progress s2
  ⟨{ s3 with refreshEnabled := true, startEnabled := false,
             stopEnabled := false, statusText := "Cancelled" },
   waited, dropped⟩

/-- The GUI state right after a successful configure/authenticate/
`setup_worker` sequence: worker and manager present, refresh enabled (its
initial state), start/stop disabled (their initial state), no progress, no
operation dispatched yet. -/
def configuredIdle : GuiState :=
  { hasWorker := true, hasVmManager := true, refreshEnabled := true,
    startEnabled := false, stopEnabled := false, cancelEnabled := false,
    progressVisible := false, autoRefreshActive := false,
    statusText := "Unknown", pending := [], executing := none }

/-! ## Helper lemmas -/

lemma trim_ne_of_ne {s : String} (h : trimStr s ≠ "") : s ≠ "" := by
  intro hs
  exact h (by rw [hs]; rfl)

lemma applyEnvOverride_of_truthy {v : Option String} {cur : String}
    (h : envTruthy v = true) : applyEnvOverride v cur = v.getD "" := by
  cases v with
  | none => simp [envTruthy] at h
  | some s =>
      simp only [envTruthy] at h
      simp [applyEnvOverride, h]

lemma applyEnvOverride_of_not_truthy {v : Option String} {cur : String}
    (h : envTruthy v = false) : applyEnvOverride v cur = cur := by
  cases v with
  | none => rfl
  | some s =>
      simp only [envTruthy] at h
      simp [applyEnvOverride, h]

/-! ## Claims -/

/-- Claim C3 counterexample: `validate_config` accepts a configuration
whose project field is whitespace-only (a single space), although the claim
says a whitespace-only field is rejected — the spec-worded `validateSpec`
indeed rejects it, and the space trims to the empty string. -/
theorem C3_counterexample :
    validate_config ⟨" ", "us-central1-a", "vm1", "/k.json"⟩ = true ∧
    validateSpec ⟨" ", "us-central1-a", "vm1", "/k.json"⟩ = false ∧
    trimStr " " = "" := by
  refine ⟨rfl, ?_, ?_⟩ <;> decide

/-- Claim C3 amended: `validate_config` returns true iff all four fields
are non-empty as given (Python truthiness, no trimming); in particular
every configuration accepted by the spec's trimmed test is accepted, but
whitespace-only fields are accepted as well. -/
theorem C3_validate_truthiness (c : Config) :
    (validate_config c = true ↔
      (c.project_id ≠ "" ∧ c.zone ≠ "" ∧ c.instance_name ≠ "" ∧
        c.service_key_path ≠ "")) ∧
    (validateSpec c = true → validate_config c = true) := by
  constructor
  · simp [validate_config, and_assoc]
  · intro h
    simp only [validateSpec, Bool.and_eq_true, bne_iff_ne, ne_eq] at h
    simp only [validate_config, Bool.and_eq_true, bne_iff_ne, ne_eq]
    exact ⟨⟨⟨trim_ne_of_ne h.1.1.1, trim_ne_of_ne h.1.1.2⟩,
      trim_ne_of_ne h.1.2⟩, trim_ne_of_ne h.2⟩

/-- Claim C3 witness: the amended theorem applied to a fully populated
configuration. -/
theorem C3_validate_truthiness_witness :
    validate_config ⟨"proj1", "us-central1-a", "vm1", "/k.json"⟩ = true :=
  (C3_validate_truthiness ⟨"proj1", "us-central1-a", "vm1", "/k.json"⟩).2
    (by decide)

/-- Claim C4 counterexample: `save_config` given an invalid configuration
(empty project field) still writes it to storage and reports success — it
does not validate and does not leave the persisted state unchanged. -/
theorem C4_counterexample :
    validate_config ⟨"", "us-central1-a", "vm1", "/k.json"⟩ = false ∧
    save_config (some ⟨"proj1", "us-central1-a", "vm1", "/k.json"⟩)
        ⟨"", "us-central1-a", "vm1", "/k.json"⟩ =
      (some ⟨"", "us-central1-a", "vm1", "/k.json"⟩, true) :=
  ⟨rfl, rfl⟩

/-- Claim C4 amended: `save_config` itself performs no validation — it
persists whatever configuration it is given and returns success; the
validate-before-write short-circuit lives in its caller (the GUI config
dialog's save path), which leaves storage untouched on invalid input. -/
theorem C4_save_no_validation (store : Option Config) (c : Config) :
    save_config store c = (some c, true) ∧
    (validate_config c = false → save_and_accept store c = (store, false)) := by
  refine ⟨rfl, ?_⟩
  intro h
  simp [save_and_accept, h]

/-- Claim C4 witness: the amended theorem applied to an all-empty (invalid)
configuration with a previously saved store. -/
theorem C4_save_no_validation_witness :
    save_and_accept (some ⟨"proj1", "us-central1-a", "vm1", "/k.json"⟩)
        ⟨"", "", "", ""⟩ =
      (some ⟨"proj1", "us-central1-a", "vm1", "/k.json"⟩, false) :=
  (C4_save_no_validation
      (some ⟨"proj1", "us-central1-a", "vm1", "/k.json"⟩)
      ⟨"", "", "", ""⟩).2 (by decide)

/-- Claim C5: `legalActions` yields exactly the enumerated ordered sets for
each status (RUNNING: stop/none, TERMINATED: start/none, others:
start/stop/none), never an empty set for any status string; the selected
menu entry resolves to the corresponding operation kind, NONE ("nothing")
dispatching no operation; and the GUI button states mirror the same sets. -/
theorem C5_legal_actions :
    legalActions "RUNNING" = [MenuAction.STOP, MenuAction.NONE] ∧
    legalActions "TERMINATED" = [MenuAction.START, MenuAction.NONE] ∧
    legalActions "TRANSITIONING" =
      [MenuAction.START, MenuAction.STOP, MenuAction.NONE] ∧
    legalActions "UNKNOWN" =
      [MenuAction.START, MenuAction.STOP, MenuAction.NONE] ∧
    legalActions "ERROR" =
      [MenuAction.START, MenuAction.STOP, MenuAction.NONE] ∧
    (∀ vm_status : String, legalActions vm_status ≠ []) ∧
    get_user_choice "RUNNING" "1" = some "stop" ∧
    dispatch_choice "stop" = some OpKind.STOP ∧
    get_user_choice "TERMINATED" "1" = some "start" ∧
    dispatch_choice "start" = some OpKind.START ∧
    get_user_choice "RUNNING" "2" = some "nothing" ∧
    dispatch_choice "nothing" = none ∧
    (update_status configuredIdle "RUNNING").startEnabled = false ∧
    (update_status configuredIdle "RUNNING").stopEnabled = true ∧
    (update_status configuredIdle "TERMINATED").startEnabled = true ∧
    (update_status configuredIdle "TERMINATED").stopEnabled = false ∧
    (update_status configuredIdle "TRANSITIONING").startEnabled = true ∧
    (update_status configuredIdle "TRANSITIONING").stopEnabled = true := by
  refine ⟨rfl, rfl, rfl, rfl, rfl, ?_, rfl, rfl, rfl, rfl, rfl, rfl,
    rfl, rfl, rfl, rfl, rfl, rfl⟩
  intro vm_status
  unfold legalActions
  split
  · simp
  · split <;> simp

/-- Claim C5 witness: the non-emptiness conjunct applied at a concrete
status string. -/
theorem C5_legal_actions_witness :
    legalActions "RUNNING" ≠ [] :=
  C5_legal_actions.2.2.2.2.2.1 "RUNNING"

/-- Claim C6: saving a valid configuration and then loading yields the same
configuration (JSON round-trip of the four string fields is lossless). -/
theorem C6_round_trip (store : Option Config) (c : Config)
    (h : validate_config c = true) :
    load_saved_config (save_config store c).1 = c := rfl

/-- Claim C6 witness: the round trip at the spec's scenario
configuration. -/
theorem C6_round_trip_witness :
    load_saved_config (save_config none
        ⟨"proj1", "us-central1-a", "vm1", "/k.json"⟩).1 =
      ⟨"proj1", "us-central1-a", "vm1", "/k.json"⟩ :=
  C6_round_trip none ⟨"proj1", "us-central1-a", "vm1", "/k.json"⟩ (by decide)

/-- Claim C7 counterexample: with GCP_PROJECT_ID present in the
environment but set to the empty string and a persisted project "proj1",
the loaded configuration keeps "proj1" — the present environment variable
does not override — whereas the claim's effective-value rule (environment
value if set) yields the empty string. -/
theorem C7_counterexample :
    (load_initial_config (some ⟨"proj1", "us-central1-a", "vm1", "/k.json"⟩)
        ⟨some "", none, none, none⟩).project_id = "proj1" ∧
    effectiveFieldSpec (some "") "proj1" = "" :=
  ⟨rfl, rfl⟩

/-- Claim C7 amended: an environment variable overrides its configuration
field iff it is set to a non-empty string (Python truthiness of
`os.getenv`); otherwise the persisted value is kept, and a field that is
neither overridden nor persisted is empty.  Precedence: non-empty
environment > persisted file > empty. -/
theorem C7_env_precedence (store : Option Config) (env : EnvVars) :
    (envTruthy env.gcp_project_id = true →
      (load_initial_config store env).project_id =
        env.gcp_project_id.getD "") ∧
    (envTruthy env.gcp_project_id = false →
      (load_initial_config store env).project_id =
        (load_saved_config store).project_id) ∧
    (envTruthy env.gcp_zone = true →
      (load_initial_config store env).zone = env.gcp_zone.getD "") ∧
    (envTruthy env.gcp_instance_name = true →
      (load_initial_config store env).instance_name =
        env.gcp_instance_name.getD "") ∧
    (envTruthy env.gcp_service_key_path = false →
      (load_initial_config store env).service_key_path =
        (load_saved_config store).service_key_path) ∧
    (env.gcp_zone = none → store = none →
      (load_initial_config store env).zone = "") := by
  refine ⟨?_, ?_, ?_, ?_, ?_, ?_⟩
  · intro h; exact applyEnvOverride_of_truthy h
  · intro h; exact applyEnvOverride_of_not_truthy h
  · intro h; exact applyEnvOverride_of_truthy h
  · intro h; exact applyEnvOverride_of_truthy h
  · intro h; exact applyEnvOverride_of_not_truthy h
  · intro hz hs
    subst hs
    show applyEnvOverride env.gcp_zone emptyConfig.zone = ""
    rw [hz]
    rfl

/-- Claim C7 witness: the amended theorem applied with a non-empty
environment override beating a persisted value. -/
theorem C7_env_precedence_witness :
    (load_initial_config (some ⟨"proj1", "us-central1-a", "vm1", "/k.json"⟩)
        ⟨some "proj2", none, none, none⟩).project_id = "proj2" :=
  (C7_env_precedence (some ⟨"proj1", "us-central1-a", "vm1", "/k.json"⟩)
      ⟨some "proj2", none, none, none⟩).1 (by decide)

/-- Claim C8: `clear_saved_config` succeeds on an already-empty store
(idempotent), clearing twice is the same as clearing once, and after a save
followed by a clear, loading returns the empty configuration. -/
theorem C8_clear_idempotent (store : Option Config) (c : Config) :
    (clear_saved_config none).2 = true ∧
    clear_saved_config (clear_saved_config store).1 =
      ((clear_saved_config store).1, true) ∧
    load_saved_config
        (clear_saved_config (save_config store c).1).1 = emptyConfig :=
  ⟨rfl, rfl, rfl⟩

/-- Claim C9: a worker status query whose underlying call yields an empty
(falsy) status string delivers the "Failed to get VM status" error event,
and no query result whatsoever is ever reported as an empty status. -/
theorem C9_empty_status_is_error :
    worker_get_status (some "") =
      Event.error_occurred "Failed to get VM status" ∧
    worker_get_status none =
      Event.error_occurred "Failed to get VM status" ∧
    (∀ result : Option String,
      worker_get_status result ≠ Event.status_updated "") := by
  refine ⟨rfl, rfl, ?_⟩
  intro result
  cases result with
  | none => simp [worker_get_status]
  | some s =>
      by_cases h : s = ""
      · subst h; simp [worker_get_status]
      · simp [worker_get_status, h]

/-- Claim C9 witness: the never-an-empty-status conjunct applied at a
concrete query result. -/
theorem C9_empty_status_is_error_witness :
    worker_get_status (some "RUNNING") ≠ Event.status_updated "" :=
  C9_empty_status_is_error.2.2 (some "RUNNING")

/-- Claim C10: on a freshly constructed controller (client handle still
None), every lifecycle call returns its failure value instead of raising:
the AttributeError from the None client is caught by the blanket except
blocks, so status is None and start/stop return False. -/
theorem C10_unauthenticated_calls_fail
    (project_id zone instance_name service_key_path : String) :
    (GCPVMManager.mkInit project_id zone instance_name
        service_key_path).get_instance_status = none ∧
    (GCPVMManager.mkInit project_id zone instance_name
        service_key_path).start_instance = false ∧
    (GCPVMManager.mkInit project_id zone instance_name
        service_key_path).stop_instance = false :=
  ⟨rfl, rfl, rfl⟩

/-- Claim C1 counterexample: from the configured idle state, a first
`refresh_status` dispatches a status request and the worker thread begins
executing it; a second `refresh_status` issued while that operation is in
flight (as the auto-refresh timer does) is not rejected — it is dispatched
(second component `true`) and its invocation is queued on the worker
thread for later execution, so the system holds two accepted operations at
once. -/
theorem C1_counterexample :
    busyState (workerTake (refresh_status configuredIdle).1) = true ∧
    (workerTake (refresh_status configuredIdle).1).executing =
      some OpKind.STATUS ∧
    (refresh_status (workerTake (refresh_status configuredIdle).1)).2 =
      true ∧
    (refresh_status (workerTake (refresh_status configuredIdle).1)).1.pending =
      [OpKind.STATUS] := by
  refine ⟨?_, ?_, ?_, ?_⟩ <;> decide

/-- Claim C1 amended: at most one operation executes at a time because the
single worker thread runs queued slot invocations one by one (it never
begins a new one while one is executing), but a request arriving while an
operation is in flight is not rejected with Busy: whenever the worker and
manager exist, `refresh_status`/`start_vm` dispatch unconditionally and
append the request to the worker thread's queue, disabling only the
triggering buttons. -/
theorem C1_requests_queued_not_rejected (s : GuiState) :
    (s.executing.isSome = true → workerTake s = s) ∧
    (s.hasWorker = true → s.hasVmManager = true →
      (refresh_status s).2 = true ∧
      (refresh_status s).1.pending = s.pending ++ [OpKind.STATUS] ∧
      (refresh_status s).1.refreshEnabled = false) ∧
    (s.hasWorker = true →
      (gui_start_vm s).2 = true ∧
      (gui_start_vm s).1.pending = s.pending ++ [OpKind.START] ∧
      (gui_start_vm s).1.startEnabled = false ∧
      (gui_start_vm s).1.stopEnabled = false) := by
  refine ⟨?_, ?_, ?_⟩
  · intro h
    unfold workerTake
    cases hex : s.executing with
    | none => rw [hex] at h; simp at h
    | some k => rfl
  · intro h1 h2
    simp [refresh_status, show_progress, h1, h2]
  · intro h1
    simp [gui_start_vm, show_progress, h1]

/-- Claim C1 witness: the amended theorem applied to the in-flight state
reached by a refresh followed by the worker picking it up. -/
theorem C1_requests_queued_not_rejected_witness :
    (refresh_status (workerTake (refresh_status configuredIdle).1)).2 =
      true ∧
    workerTake (workerTake (refresh_status configuredIdle).1) =
      workerTake (refresh_status configuredIdle).1 :=
  ⟨((C1_requests_queued_not_rejected
        (workerTake (refresh_status configuredIdle).1)).2.1
      (by decide) (by decide)).1,
   (C1_requests_queued_not_rejected
        (workerTake (refresh_status configuredIdle).1)).1 (by decide)⟩

/-- Claim C2 counterexample: cancelling while a status operation is
executing tears the worker thread down with quit-then-wait, and the wait
blocks until the executing slot — the in-flight remote call — returns its
data, contradicting "without waiting for the in-flight remote call to
return data". -/
theorem C2_counterexample :
    busyState (workerTake (refresh_status configuredIdle).1) = true ∧
    (cancel_operations
        (workerTake (refresh_status configuredIdle).1)).waitedForExecuting =
      true := by
  refine ⟨?_, ?_⟩ <;> decide

/-- Claim C2 amended: cancelling a coordinator whose worker exists blocks
on the in-flight remote call exactly when one is executing, discards the
queued-but-unstarted requests without running them, destroys the worker,
and resets the UI to a non-busy "Cancelled" display; afterwards no
operation is in flight, but a further `refresh_status` is rejected as
uninitialized until a worker is re-created. -/
theorem C2_cancel_waits_and_resets (s : GuiState)
    (hw : s.hasWorker = true) :
    (cancel_operations s).waitedForExecuting = s.executing.isSome ∧
    (cancel_operations s).discarded = s.pending ∧
    busyState (cancel_operations s).state = false ∧
    (cancel_operations s).state.statusText = "Cancelled" ∧
    (cancel_operations s).state.progressVisible = false ∧
    (cancel_operations s).state.hasWorker = false ∧
    (refresh_status (cancel_operations s).state).2 = false := by
  simp [cancel_operations, hide_progress, busyState, refresh_status, hw]

/-- Claim C2 witness: the amended theorem applied to the busy state reached
by a single refresh from the configured idle state. -/
theorem C2_cancel_waits_and_resets_witness :
    (cancel_operations (refresh_status configuredIdle).1).state.statusText =
      "Cancelled" :=
  (C2_cancel_waits_and_resets (refresh_status configuredIdle).1
      (by decide)).2.2.2.1
